import Mathlib

/-!
Shallow embedding of the `finder` repository (src/finder.py, src/llm.py,
src/finder_ui.py).

External effects are modelled explicitly:
* the filesystem is a pair of oracles giving, for a path, the bytes obtained
  by the text-mode read and by the byte-mode read (`none` models a raised
  OSError / missing file);
* the optional third-party libraries (PyPDF2, pdf2image, pytesseract, the
  PNG/base64 encoder, and the LangChain client `invoke`) are oracle fields of
  a `Deps` structure, with `Option` for "import failed" and `Except` for
  "call raised";
* Python's codecs `utf-8` (errors="replace") and `latin-1` (errors="replace")
  are implemented as total Lean functions on byte lists.
-/

namespace Finder

/-- True when `b` is a UTF-8 continuation byte (0x80..0xBF). -/
def utf8Cont (b : Nat) : Bool := 0x80 ≤ b && b ≤ 0xBF

/-- One step of the UTF-8 decoder with `errors="replace"` semantics:
given the first byte `b` and the remaining bytes, return the decoded code
point (U+FFFD for an ill-formed maximal subpart, as CPython does) and the
bytes not yet consumed. The step always consumes at least the byte `b`. -/
def utf8Step (b : Nat) (rest : List Nat) : Nat × List Nat :=
  if b < 0x80 then (b, rest)
  else if 0xC2 ≤ b && b ≤ 0xDF then
    match rest with
    | b2 :: r =>
      if utf8Cont b2 then ((b - 0xC0) * 64 + (b2 - 0x80), r) else (0xFFFD, rest)
    | [] => (0xFFFD, [])
  else if 0xE0 ≤ b && b ≤ 0xEF then
    let lo2 := if b = 0xE0 then 0xA0 else 0x80
    let hi2 := if b = 0xED then 0x9F else 0xBF
    match rest with
    | b2 :: r2 =>
      if lo2 ≤ b2 && b2 ≤ hi2 then
        match r2 with
        | b3 :: r3 =>
          if utf8Cont b3 then
            ((b - 0xE0) * 4096 + (b2 - 0x80) * 64 + (b3 - 0x80), r3)
          else (0xFFFD, r2)
        | [] => (0xFFFD, [])
      else (0xFFFD, rest)
    | [] => (0xFFFD, [])
  else if 0xF0 ≤ b && b ≤ 0xF4 then
    let lo2 := if b = 0xF0 then 0x90 else 0x80
    let hi2 := if b = 0xF4 then 0x8F else 0xBF
    match rest with
    | b2 :: r2 =>
      if lo2 ≤ b2 && b2 ≤ hi2 then
        match r2 with
        | b3 :: r3 =>
          if utf8Cont b3 then
            match r3 with
            | b4 :: r4 =>
              if utf8Cont b4 then
                ((b - 0xF0) * 262144 + (b2 - 0x80) * 4096 + (b3 - 0x80) * 64
                  + (b4 - 0x80), r4)
              else (0xFFFD, r3)
            | [] => (0xFFFD, [])
          else (0xFFFD, r2)
        | [] => (0xFFFD, [])
      else (0xFFFD, rest)
    | [] => (0xFFFD, [])
  else (0xFFFD, rest)

/-- Fuel-indexed loop of the UTF-8 decoder; fuel bounded by the length of the
byte list suffices because each step consumes at least one byte. -/
def utf8DecodeAux : Nat → List Nat → List Nat
  | 0, _ => []
  | _, [] => []
  | fuel + 1, b :: rest =>
    let step := utf8Step b rest
    step.1 :: utf8DecodeAux fuel step.2

/-- Python `bytes.decode("utf-8", errors="replace")` as a total function. -/
def utf8DecodeReplace (bs : List Nat) : String :=
  String.mk ((utf8DecodeAux bs.length bs).map Char.ofNat)

/-- Python `bytes.decode("latin-1", errors="replace")`: every byte 0x00..0xFF
maps to the code point of the same value, so the decode is total and never
replaces anything. -/
def latin1DecodeReplace (bs : List Nat) : String :=
  String.mk (bs.map Char.ofNat)

/-- Filesystem model. `readText p` is the byte content successfully read by
`pathlib.Path(p).read_text(...)` (`none` models the call raising, e.g. a
missing file or an OS error); `readBytes p` likewise for `read_bytes()`.
Decoding itself never raises because both call sites use a total decode
(`errors="replace"` for UTF-8, and latin-1 accepts every byte). -/
structure FS where
  readText : String → Option (List Nat)
  readBytes : String → Option (List Nat)

/-- `finder._read_raw_data`: UTF-8 (replace) via `read_text`; if that read
raises, latin-1 (replace) via `read_bytes`; if that also raises, `""`. -/
def _read_raw_data (fs : FS) (raw_path : String) : String :=
  match fs.readText raw_path with
  | some bs => utf8DecodeReplace bs
  | none =>
    match fs.readBytes raw_path with
    | some bs => latin1DecodeReplace bs
    | none => ""

/-! ## llm.py -/

/-- Environment model: `os.getenv` (`none` when the variable is unset). -/
def Env : Type := String → Option String

/-- The observable configuration of a constructed LangChain chat client.
`className` is the Python class name of the client; the remaining fields
record the constructor arguments that the three helpers pass. `temperature`
is kept as the literal decimal text (all three helpers pass 0.3).
`maxOutputTokens` covers both `max_output_tokens` (Vertex) and `max_tokens`
(OpenAI); `_gemini_api_llm` deliberately omits it. -/
structure LLMClient where
  className : String
  model : String
  temperature : String
  maxOutputTokens : Option Nat
  project : Option String
  location : Option String
  apiKey : Option String
deriving DecidableEq, Repr

/-- `llm._vertex_llm`: requires `GOOGLE_CLOUD_PROJECT` (a missing required
variable models `os.environ[...]` raising `KeyError`). -/
def _vertex_llm (env : Env) : Except String LLMClient :=
  match env "GOOGLE_CLOUD_PROJECT" with
  | none => .error "KeyError: GOOGLE_CLOUD_PROJECT"
  | some proj =>
    .ok { className := "ChatVertexAI"
          model := (env "GEMINI_MODEL").getD "chat-bison@001"
          temperature := "0.3"
          maxOutputTokens := some 1024
          project := some proj
          location := some "us-central1"
          apiKey := none }

/-- `llm._gemini_api_llm`: requires `GEMINI_API_KEY`; `max_output_tokens` is
deliberately omitted (see the comment in the source). -/
def _gemini_api_llm (env : Env) : Except String LLMClient :=
  match env "GEMINI_API_KEY" with
  | none => .error "KeyError: GEMINI_API_KEY"
  | some key =>
    .ok { className := "ChatGoogleGenerativeAI"
          model := (env "GEMINI_MODEL").getD "gemini-2p5-flash"
          temperature := "0.3"
          maxOutputTokens := none
          project := none
          location := none
          apiKey := some key }

/-- `llm._openai_llm`: requires `OPENAI_API_KEY`. -/
def _openai_llm (env : Env) : Except String LLMClient :=
  match env "OPENAI_API_KEY" with
  | none => .error "KeyError: OPENAI_API_KEY"
  | some key =>
    .ok { className := "ChatOpenAI"
          model := (env "OPENAI_MODEL").getD "gpt-4o-mini"
          temperature := "0.3"
          maxOutputTokens := some 1024
          project := none
          location := none
          apiKey := some key }

/-- Python `str.lower()` as used here (per-character lowering; the values
compared are ASCII). Written with an explicit character map so it reduces in
the kernel. -/
def pyLower (s : String) : String := String.mk (s.data.map Char.toLower)

/-- `llm.get_llm`: `provider = provider or os.getenv("LLM_PROVIDER",
"vertex").lower()` — a `None` (or falsy empty) argument falls back to the
lower-cased environment value, defaulting to "vertex"; then a two-way string
dispatch with Vertex AI as the final fallback. Note the source lower-cases
only the environment value, not the explicit argument. -/
def get_llm (env : Env) (provider : Option String) : Except String LLMClient :=
  let p :=
    match provider with
    | some s => if s = "" then pyLower ((env "LLM_PROVIDER").getD "vertex") else s
    | none => pyLower ((env "LLM_PROVIDER").getD "vertex")
  if p = "gemini_api" then _gemini_api_llm env
  else if p = "openai" then _openai_llm env
  else _vertex_llm env

/-! ## finder.py: message and response shapes -/

/-- One element of a LangChain multimodal `content` list. -/
inductive ContentPart where
  | text (s : String)
  | image_url (u : String)
deriving DecidableEq, Repr

/-- A LangChain message `content`: either a plain string or a parts list. -/
inductive MsgContent where
  | str (s : String)
  | parts (ps : List ContentPart)
deriving DecidableEq, Repr

/-- A message sent to the client. -/
inductive Message where
  | system (c : MsgContent)
  | human (c : MsgContent)
deriving DecidableEq, Repr

/-- The value returned by `llm.invoke(messages)`: either a plain Python
string, or an object with an optional `content` attribute (`contentText` is
`str(response.content)` when the attribute exists) and a string form
`strForm` (= `str(response)`). -/
inductive LLMResponse where
  | pyStr (s : String)
  | pyObj (contentText : Option String) (strForm : String)
deriving DecidableEq, Repr

/-- External dependencies of finder.py, parametrised by an abstract page
image type. `Option` fields model optional imports that may have failed;
`Except Unit` results model calls that may raise. -/
structure Deps (Image : Type) where
  /-- `PyPDF2.PdfReader` composed with `page.extract_text()` over
  `reader.pages`: for a path, the per-page extraction results
  (`none` inside the list models `extract_text()` returning `None`). -/
  pdfReader : Option (String → Except Unit (List (Option String)))
  /-- `pdf2image.convert_from_path` (both call sites render at the same
  effective 200 dpi, PNG format). -/
  convertFromPath : Option (String → Except Unit (List Image))
  /-- `pytesseract.image_to_string`. -/
  pytesseract : Option (Image → Except Unit String)
  /-- `img.save(buffer, format="PNG")` followed by base64-encoding the
  buffer: the base64 payload for a page image. -/
  pngBase64 : Image → Except Unit String
  /-- `llm.invoke(messages)`. -/
  invoke : LLMClient → List Message → LLMResponse

/-- `finder._extract_ocr_text`: empty when either optional dependency is
missing or page rendering raises; otherwise per-page OCR with per-page
failures mapped to "", keeping stripped non-empty chunks, joined by blank
lines. -/
def _extract_ocr_text {Image : Type} (deps : Deps Image) (pdf_path : String) :
    String :=
  match deps.convertFromPath, deps.pytesseract with
  | none, _ => ""
  | _, none => ""
  | some conv, some tess =>
    match conv pdf_path with
    | .error _ => ""
    | .ok images =>
      let ocr_chunks := images.filterMap fun img =>
        let text := match tess img with | .error _ => "" | .ok t => t
        if text ≠ "" then some text.trim else none
      String.intercalate "\n\n" ocr_chunks

/-- `finder._extract_pdf_page_images`: empty when pdf2image is missing or
rendering raises; otherwise truncate to `max_pages` when given, then encode
each page, skipping pages whose encoding raises. -/
def _extract_pdf_page_images {Image : Type} (deps : Deps Image)
    (pdf_path : String) (max_pages : Option Nat) : List String :=
  match deps.convertFromPath with
  | none => []
  | some conv =>
    match conv pdf_path with
    | .error _ => []
    | .ok images0 =>
      let images := match max_pages with
        | some n => images0.take n
        | none => images0
      images.filterMap fun img =>
        match deps.pngBase64 img with
        | .error _ => none
        | .ok encoded => some ("data:image/png;base64," ++ encoded)

/-- `finder._extract_pdf_text`: library text extraction (page texts, with
`None` coerced to "", joined by blank lines; "" when PyPDF2 is missing or
parsing raises), then OCR; a non-empty OCR result is appended after a blank
line (or stands alone when the library text is empty). -/
def _extract_pdf_text {Image : Type} (deps : Deps Image) (pdf_path : String) :
    String :=
  let text_content :=
    match deps.pdfReader with
    | none => ""
    | some reader =>
      match reader pdf_path with
      | .error _ => ""
      | .ok pages => String.intercalate "\n\n" (pages.map fun t => t.getD "")
  let ocr_text := _extract_ocr_text deps pdf_path
  if ocr_text ≠ "" then
    if text_content ≠ "" then text_content ++ "\n\n" ++ ocr_text else ocr_text
  else text_content

/-! ## finder.py: diagnose_customer_issue -/

/-- The `raw_data_path` argument: the source accepts a single path or a
list/tuple of paths and branches on `isinstance(raw_data_path, (list, tuple))`. -/
inductive RawArg where
  | single (p : String)
  | listOf (ps : List String)
deriving DecidableEq, Repr

/-- Start marker of the block for raw file number `idx` located at `path`. -/
def raw_start_marker (idx : Nat) (path : String) : String :=
  "===== RAW FILE " ++ toString idx ++ " (" ++ path ++ ") START ====="

/-- End marker of the block for raw file number `idx`. -/
def raw_end_marker (idx : Nat) : String :=
  "===== RAW FILE " ++ toString idx ++ " END ====="

/-- The block appended to `raw_parts` for file number `idx` (1-based). -/
def raw_file_block (fs : FS) (idx : Nat) (path : String) : String :=
  raw_start_marker idx path ++ "\n" ++ _read_raw_data fs path ++ "\n"
    ++ raw_end_marker idx

/-- Lines 183–192 of finder.py: a list/tuple is read file by file, each file
wrapped in enumerated markers and the blocks joined by blank lines; a single
path is read bare. -/
def assemble_raw_text (fs : FS) : RawArg → String
  | .single p => _read_raw_data fs p
  | .listOf ps =>
    String.intercalate "\n\n"
      ((List.enumFrom 1 ps).map fun ip => raw_file_block fs ip.1 ip.2)

/-- The `system_prompt` literal. -/
def system_prompt : String :=
  "You are a senior support engineer. A customer has provided a PDF describing "
    ++ "their problem, as well as various hypotheses about what might be causing it. "
    ++ "Your task is to determine the root cause of the issue and explain it in clear, lay-person terms."

/-- The `user_prompt` f-string, as a function of the interpolated
`pdf_text` and `raw_text`. -/
def user_prompt (pdf_text raw_text : String) : String :=
  "The full plain-text extraction of the PDF appears below, followed by the rendered images for "
    ++ "each PDF page.  The images capture visual layout, graphics, logos, or any other information that "
    ++ "may be missing from the raw text.  Use BOTH the text and the images together to understand the "
    ++ "document in context.\n\n"
    ++ "----- PDF TEXT START -----\n"
    ++ pdf_text ++ "\n"
    ++ "----- PDF TEXT END -----\n\n"
    ++ "After the text you will find one image block per page, wrapped with the markers \"PDF PAGE N IMAGE START/END\".\n\n"
    ++ "The customer also supplied raw diagnostic data which appears after the images.\n\n"
    ++ "----- RAW DATA START -----\n"
    ++ raw_text ++ "\n"
    ++ "----- RAW DATA END -----\n\n"
    ++ "Using ONLY the information provided (text + images + raw data), diagnose the customer's issue. "
    ++ "Provide a concise summary, then a detailed technical analysis.  If the information is insufficient, "
    ++ "state what additional data would help."

/-- The vision branch's `content_parts`: the combined text, then, per page
image (enumerated from 1), a start-marker text part, the image part, and an
end-marker text part. -/
def vision_content_parts (combined_text : String) (page_images : List String) :
    List ContentPart :=
  ContentPart.text combined_text ::
    (List.enumFrom 1 page_images).flatMap fun iu =>
      [ContentPart.text ("----- PDF PAGE " ++ toString iu.1 ++ " IMAGE START -----"),
       ContentPart.image_url iu.2,
       ContentPart.text ("----- PDF PAGE " ++ toString iu.1 ++ " IMAGE END -----")]

/-- `using_gemini_vision` (finder.py lines 230–237): explicit provider string
(lower-cased, with `None` coerced to "") equal to "gemini_api", else the
instantiated client's class name equal to "ChatGoogleGenerativeAI". -/
def using_gemini_vision (provider : Option String) (llm : LLMClient) : Bool :=
  if pyLower (provider.getD "") = "gemini_api" then true
  else llm.className = "ChatGoogleGenerativeAI"

/-- The client construction and message assembly of
`diagnose_customer_issue` (up to line 269): extract the PDF text, assemble
the raw text, obtain the client (a `KeyError` from a missing credential
propagates), then build either the single multimodal `HumanMessage` (vision)
or the `SystemMessage` + `HumanMessage` pair. -/
def diagnose_messages {Image : Type} (deps : Deps Image) (fs : FS) (env : Env)
    (pdf_path : String) (raw_data_path : RawArg) (provider : Option String) :
    Except String (LLMClient × List Message) :=
  let pdf_text := _extract_pdf_text deps pdf_path
  let raw_text := assemble_raw_text fs raw_data_path
  match get_llm env provider with
  | .error e => .error e
  | .ok llm =>
    if using_gemini_vision provider llm then
      let combined_text := system_prompt ++ "\n\n" ++ user_prompt pdf_text raw_text
      let page_images := _extract_pdf_page_images deps pdf_path (some 16)
      .ok (llm, [Message.human (.parts (vision_content_parts combined_text page_images))])
    else
      .ok (llm, [Message.system (.str system_prompt),
                 Message.human (.str (user_prompt pdf_text raw_text))])

/-- Lines 274–277: a plain string response is returned as is; otherwise
`str(getattr(response, "content", ""))` is returned unless that string is
empty (attribute missing, or its string form empty), in which case
`str(response)` is returned. -/
def extract_content : LLMResponse → String
  | .pyStr s => s
  | .pyObj contentText strForm =>
    let c := contentText.getD ""
    if c = "" then strForm else c

/-- `finder.diagnose_customer_issue`: build the messages, invoke the client
once, unwrap the response text. -/
def diagnose_customer_issue {Image : Type} (deps : Deps Image) (fs : FS)
    (env : Env) (pdf_path : String) (raw_data_path : RawArg)
    (provider : Option String) : Except String String :=
  match diagnose_messages deps fs env pdf_path raw_data_path provider with
  | .error e => .error e
  | .ok (llm, messages) => .ok (extract_content (deps.invoke llm messages))

/-- Whether a content part is an image block. -/
def partIsImage : ContentPart → Bool
  | .image_url _ => true
  | .text _ => false

/-- Number of `image_url` parts in a `content`. -/
def contentImageCount : MsgContent → Nat
  | .str _ => 0
  | .parts ps => (ps.filter partIsImage).length

/-- Number of `image_url` parts across a message list. -/
def messagesImageCount (ms : List Message) : Nat :=
  (ms.map fun m => match m with
    | .system c => contentImageCount c
    | .human c => contentImageCount c).sum

/-! ## finder_ui.py -/

/-- The observable steps of a UI handler run: strings surfaced to the user
(generator yields, `st.warning`, `st.markdown`, `st.error`) and the point at
which the orchestrator (and hence the model) is invoked. -/
inductive UIEvent where
  | yielded (s : String)
  | warned (s : String)
  | rendered (s : String)
  | errored (s : String)
  | modelCall
deriving DecidableEq, Repr

/-- `finder_ui._run_diagnosis`: guard `pdf_file is None or not raw_files`
(a `None` list and an empty list are both falsy) yields one prompting
message and returns; otherwise yield the interim message, call the
orchestrator and yield its result, or yield an error string if it raises. -/
def _run_diagnosis {Image : Type} (deps : Deps Image) (fs : FS) (env : Env)
    (pdf_file : Option String) (raw_files : Option (List String)) :
    List UIEvent :=
  if pdf_file.isNone || (raw_files.getD []).isEmpty then
    [UIEvent.yielded "Please upload both the PDF and raw data files."]
  else
    match pdf_file with
    | none => []
    | some pdf_path =>
      UIEvent.yielded "⏳ Running diagnosis – this may take a minute..." ::
        UIEvent.modelCall ::
          match diagnose_customer_issue deps fs env pdf_path
              (.listOf (raw_files.getD [])) none with
          | .ok result => [UIEvent.yielded result]
          | .error e => [UIEvent.yielded ("Error running diagnosis: " ++ e)]

/-- An uploaded file in the Streamlit UI: its name and buffer bytes. -/
structure UploadedFile where
  name : String
  bytes : List Nat
deriving DecidableEq, Repr

/-- The filesystem as seen after `launch` saves the uploads under
`tmp_dir`: both read modes return the saved bytes of the first upload whose
temporary path matches. -/
def savedFS (tmp_dir : String) (files : List UploadedFile) : FS :=
  { readText := fun p =>
      (files.find? fun f => tmp_dir ++ "/" ++ f.name = p).map (·.bytes)
    readBytes := fun p =>
      (files.find? fun f => tmp_dir ++ "/" ++ f.name = p).map (·.bytes) }

/-- The body of the Diagnose button in `finder_ui.launch` (lines 83–106):
warn and stop when the PDF or the raw-file list is missing; otherwise save
the uploads to a temporary directory, invoke the orchestrator on the saved
paths, and render the result (or the error string). -/
def launch_diagnose_click {Image : Type} (deps : Deps Image) (env : Env)
    (tmp_dir : String) (pdf_file : Option UploadedFile)
    (raw_files : List UploadedFile) : List UIEvent :=
  match pdf_file with
  | none => [UIEvent.warned "Please upload both the PDF and at least one raw data file."]
  | some pf =>
    if raw_files.isEmpty then
      [UIEvent.warned "Please upload both the PDF and at least one raw data file."]
    else
      let fs := savedFS tmp_dir (pf :: raw_files)
      let pdf_path := tmp_dir ++ "/" ++ pf.name
      let raw_paths := raw_files.map fun f => tmp_dir ++ "/" ++ f.name
      UIEvent.modelCall ::
        match diagnose_customer_issue deps fs env pdf_path
            (.listOf raw_paths) none with
        | .ok result => [UIEvent.rendered result]
        | .error e => [UIEvent.errored ("Error running diagnosis: " ++ e)]

/-! ## Helper lemmas -/

/-- `s` contains the given strings as contiguous segments, in order. -/
def containsBlocksInOrder (s : String) : List String → Prop
  | [] => True
  | b :: bs => ∃ pre rest, s = pre ++ b ++ rest ∧ containsBlocksInOrder rest bs

-- Unfolding of `String.intercalate.go` over a cons cell.
theorem intercalate_go_cons (a s b : String) (l : List String) :
    String.intercalate.go a s (b :: l) = a ++ s ++ String.intercalate.go b s l := by
  induction l generalizing a b with
  | nil => simp [String.intercalate.go, String.append_assoc]
  | cons c l ih =>
    rw [String.intercalate.go, ih, ih]
    simp [String.append_assoc]

-- `intercalate` over a list of two or more strings, one step.
theorem intercalate_cons_cons (s a b : String) (l : List String) :
    String.intercalate s (a :: b :: l) = a ++ s ++ String.intercalate s (b :: l) := by
  simp [String.intercalate, intercalate_go_cons]

-- Prepending to the searched string preserves in-order containment.
theorem containsBlocksInOrder_prepend (u t : String) (bs : List String)
    (h : containsBlocksInOrder t bs) : containsBlocksInOrder (u ++ t) bs := by
  cases bs with
  | nil => trivial
  | cons b l =>
    obtain ⟨pre, rest, heq, hrec⟩ := h
    exact ⟨u ++ pre, rest, by rw [heq]; simp [String.append_assoc], hrec⟩

-- A joined list contains its elements as contiguous blocks, in order.
theorem intercalate_containsBlocksInOrder (sep : String) (bs : List String) :
    containsBlocksInOrder (String.intercalate sep bs) bs := by
  induction bs with
  | nil => trivial
  | cons b l ih =>
    cases l with
    | nil =>
      refine ⟨"", "", ?_, trivial⟩
      simp [String.intercalate, String.intercalate.go]
    | cons c l2 =>
      rw [intercalate_cons_cons]
      refine ⟨"", sep ++ String.intercalate sep (c :: l2), ?_, ?_⟩
      · simp [String.append_assoc]
      · exact containsBlocksInOrder_prepend _ _ _ ih

-- The three-markers-per-image flat map contributes exactly one image part
-- per page image.
theorem filter_image_tripled (l : List (Nat × String)) :
    ((l.flatMap fun iu =>
        [ContentPart.text ("----- PDF PAGE " ++ toString iu.1 ++ " IMAGE START -----"),
         ContentPart.image_url iu.2,
         ContentPart.text ("----- PDF PAGE " ++ toString iu.1 ++ " IMAGE END -----")]).filter
      partIsImage).length = l.length := by
  induction l with
  | nil => rfl
  | cons hd tl ih => simp [List.flatMap_cons, partIsImage, ih]

-- The vision-branch message carries one image part per rendered page.
theorem messagesImageCount_vision (t : String) (imgs : List String) :
    messagesImageCount [Message.human (.parts (vision_content_parts t imgs))] =
      imgs.length := by
  simp [messagesImageCount, contentImageCount, vision_content_parts, partIsImage,
    filter_image_tripled, List.enumFrom_length]

-- The two-message branch carries no image part.
theorem messagesImageCount_plain (s u : String) :
    messagesImageCount [Message.system (.str s), Message.human (.str u)] = 0 := by
  simp [messagesImageCount, contentImageCount]

-- Successful message assembly: the client comes from `get_llm`, and the
-- message list is the vision form or the two-message form according to
-- `using_gemini_vision`.
theorem diagnose_messages_shape {Image : Type} (deps : Deps Image) (fs : FS)
    (env : Env) (pdf_path : String) (raw : RawArg) (provider : Option String)
    (llm : LLMClient) (msgs : List Message)
    (h : diagnose_messages deps fs env pdf_path raw provider = .ok (llm, msgs)) :
    get_llm env provider = .ok llm ∧
      ((using_gemini_vision provider llm = true ∧
          msgs = [Message.human (.parts (vision_content_parts
            (system_prompt ++ "\n\n" ++
              user_prompt (_extract_pdf_text deps pdf_path) (assemble_raw_text fs raw))
            (_extract_pdf_page_images deps pdf_path (some 16))))]) ∨
       (using_gemini_vision provider llm = false ∧
          msgs = [Message.system (.str system_prompt),
                  Message.human (.str (user_prompt (_extract_pdf_text deps pdf_path)
                    (assemble_raw_text fs raw)))])) := by
  unfold diagnose_messages at h
  cases hg : get_llm env provider with
  | error e => rw [hg] at h; exact absurd h (by simp)
  | ok llm0 =>
    rw [hg] at h
    by_cases hv : using_gemini_vision provider llm0 = true
    · simp only [hv, if_true] at h
      obtain ⟨h1, h2⟩ := Prod.mk.injEq .. ▸ Except.ok.inj h
      subst h1
      exact ⟨rfl, Or.inl ⟨hv, h2.symm⟩⟩
    · simp only [if_neg hv] at h
      obtain ⟨h1, h2⟩ := Prod.mk.injEq .. ▸ Except.ok.inj h
      subst h1
      exact ⟨rfl, Or.inr ⟨Bool.not_eq_true _ ▸ hv, h2.symm⟩⟩

/-! ## Concrete fixtures used by witnesses and counterexamples -/

/-- A filesystem on which every read raises. -/
def fsUnreadable : FS :=
  { readText := fun _ => none, readBytes := fun _ => none }

/-- A filesystem holding two small log files. -/
def fsTwoLogs : FS :=
  { readText := fun p =>
      if p = "a.log" then some [0x6C, 0x6F, 0x67, 0x41]
      else if p = "b.log" then some [0xFF]
      else none
    readBytes := fun p =>
      if p = "a.log" then some [0x6C, 0x6F, 0x67, 0x41]
      else if p = "b.log" then some [0xFF]
      else none }

/-- An environment with every credential set and `LLM_PROVIDER` unset. -/
def envFull : Env := fun k =>
  if k = "GOOGLE_CLOUD_PROJECT" then some "proj-1"
  else if k = "GEMINI_API_KEY" then some "gk-123"
  else if k = "OPENAI_API_KEY" then some "sk-123"
  else none

/-- `envFull` with `LLM_PROVIDER` set to a mixed-case value. -/
def envProviderSet : Env := fun k =>
  if k = "LLM_PROVIDER" then some "OpenAI" else envFull k

/-! ## C1 -/

/-- C1: a raw-data file that is undecodable by both attempts yields the empty
string, and `_read_raw_data` never raises. In the source both decode calls
are total for any byte content (`errors="replace"` for UTF-8, and latin-1
accepts every byte value), so a file defeats an attempt exactly when the
underlying read raises; that is the `none` oracle result here. The Lean
function is total, which is the no-exception half of the claim. -/
theorem read_raw_data_total_failure_empty (fs : FS) (p : String)
    (h1 : fs.readText p = none) (h2 : fs.readBytes p = none) :
    _read_raw_data fs p = "" := by
  simp [_read_raw_data, h1, h2]

/-- Witness for C1 at a concrete unreadable file. -/
theorem read_raw_data_total_failure_empty_witness :
    _read_raw_data fsUnreadable "diag.bin" = "" :=
  read_raw_data_total_failure_empty fsUnreadable "diag.bin" rfl rfl

/-! ## C3 -/

/-- C3: for a list of raw-data paths, the assembled raw-data text contains
each file's decoded content wrapped between a start marker labelled with its
1-based index and source path and an end marker labelled with the same
index, and the blocks appear in input order. -/
theorem raw_text_blocks_in_order (fs : FS) (ps : List String)
    (_h : 2 ≤ ps.length) :
    containsBlocksInOrder (assemble_raw_text fs (.listOf ps))
      ((List.enumFrom 1 ps).map fun ip =>
        raw_start_marker ip.1 ip.2 ++ "\n" ++ _read_raw_data fs ip.2 ++ "\n"
          ++ raw_end_marker ip.1) := by
  have h0 := intercalate_containsBlocksInOrder "\n\n"
    ((List.enumFrom 1 ps).map fun ip => raw_file_block fs ip.1 ip.2)
  simpa only [assemble_raw_text, raw_file_block, String.append_assoc] using h0

/-- Witness for C3 on two concrete files. -/
theorem raw_text_blocks_in_order_witness :
    containsBlocksInOrder (assemble_raw_text fsTwoLogs (.listOf ["a.log", "b.log"]))
      ((List.enumFrom 1 ["a.log", "b.log"]).map fun ip =>
        raw_start_marker ip.1 ip.2 ++ "\n" ++ _read_raw_data fsTwoLogs ip.2 ++ "\n"
          ++ raw_end_marker ip.1) :=
  raw_text_blocks_in_order fsTwoLogs ["a.log", "b.log"] (by decide)

/-! ## C10 -/

/-- C10: a single raw path passed directly is included bare, while the same
path passed as a one-element list is wrapped in index-and-path markers (so
the markers depend on the argument's shape, not on the number of files), and
the two assembled texts really differ. -/
theorem single_vs_list_markers (fs : FS) (p : String) :
    assemble_raw_text fs (.single p) = _read_raw_data fs p ∧
    assemble_raw_text fs (.listOf [p]) =
      raw_start_marker 1 p ++ "\n" ++ _read_raw_data fs p ++ "\n"
        ++ raw_end_marker 1 ∧
    assemble_raw_text fs (.listOf [p]) ≠ assemble_raw_text fs (.single p) := by
  have h2 : assemble_raw_text fs (.listOf [p]) =
      raw_start_marker 1 p ++ "\n" ++ _read_raw_data fs p ++ "\n"
        ++ raw_end_marker 1 := rfl
  refine ⟨rfl, h2, ?_⟩
  intro heq
  rw [h2] at heq
  have hlen := congrArg String.length heq
  have hn : ("\n" : String).length = 1 := rfl
  have hend : (raw_end_marker 1).length = 26 := rfl
  simp only [String.length_append, hn, hend, assemble_raw_text] at hlen
  omega

/-! ## C4 and C5 -/

/-- Dependencies where PyPDF2 is missing but OCR works and finds text. -/
def depsNoReader : Deps Nat :=
  { pdfReader := none
    convertFromPath := some fun _ => .ok [0]
    pytesseract := some fun _ => .ok "  OCR RESULT  "
    pngBase64 := fun _ => .error ()
    invoke := fun _ _ => .pyStr "resp" }

/-- Dependencies where PyPDF2 extracts text and OCR is unavailable. -/
def depsTextOnly : Deps Nat :=
  { pdfReader := some fun _ => .ok [some "Page one.", none, some "Page three."]
    convertFromPath := none
    pytesseract := none
    pngBase64 := fun _ => .error ()
    invoke := fun _ _ => .pyStr "resp" }

/-- C4: when library extraction fails (PyPDF2 missing, or parsing raises),
`_extract_pdf_text` returns the OCR output when that is non-empty and the
empty string otherwise; being a total function, it never propagates the
failure. -/
theorem extract_pdf_text_library_failure {Image : Type} (deps : Deps Image)
    (p : String)
    (h : deps.pdfReader = none ∨
      ∃ reader e, deps.pdfReader = some reader ∧ reader p = .error e) :
    _extract_pdf_text deps p =
      (if _extract_ocr_text deps p = "" then "" else _extract_ocr_text deps p) := by
  rcases h with h | ⟨reader, e, hr, he⟩
  · simp only [_extract_pdf_text, h]
    split <;> simp_all
  · simp only [_extract_pdf_text, hr, he]
    split <;> simp_all

/-- Witness for C4: PyPDF2 missing, OCR succeeding. -/
theorem extract_pdf_text_library_failure_witness :
    _extract_pdf_text depsNoReader "doc.pdf" =
      (if _extract_ocr_text depsNoReader "doc.pdf" = "" then ""
       else _extract_ocr_text depsNoReader "doc.pdf") :=
  extract_pdf_text_library_failure depsNoReader "doc.pdf" (Or.inl rfl)

/-- C5: for a PDF whose pages extract text while OCR yields empty text (for
instance because no page renders or no image holds text), the output equals
the library's page texts joined by blank lines, exactly, with nothing
appended. -/
theorem extract_pdf_text_exact_no_ocr {Image : Type} (deps : Deps Image)
    (p : String) (reader : String → Except Unit (List (Option String)))
    (pages : List (Option String))
    (h1 : deps.pdfReader = some reader) (h2 : reader p = .ok pages)
    (h3 : _extract_ocr_text deps p = "") :
    _extract_pdf_text deps p =
      String.intercalate "\n\n" (pages.map fun t => t.getD "") := by
  simp [_extract_pdf_text, h1, h2, h3]

/-- Witness for C5 on a three-page PDF with no OCR available. -/
theorem extract_pdf_text_exact_no_ocr_witness :
    _extract_pdf_text depsTextOnly "doc.pdf" =
      String.intercalate "\n\n"
        (([some "Page one.", none, some "Page three."].map fun t => t.getD "")) :=
  extract_pdf_text_exact_no_ocr depsTextOnly "doc.pdf" _ _ rfl rfl rfl

/-! ## C2 -/

/-- C2 counterexample: with every credential present, the "openai" and
"gemini_api" routes construct clients that differ in the hard-coded output
token cap (1024 versus deliberately omitted), and the default route carries a
hard-coded location the others lack — differences that are not credential or
environment lookups, so the three constructions do not differ *only* in
credential/env lookup. -/
theorem get_llm_not_only_credential_diff :
    (get_llm envFull (some "openai")).map (fun c => c.maxOutputTokens)
        = .ok (some 1024) ∧
    (get_llm envFull (some "gemini_api")).map (fun c => c.maxOutputTokens)
        = .ok none ∧
    (get_llm envFull none).map (fun c => c.location)
        = .ok (some "us-central1") ∧
    (get_llm envFull (some "openai")).map (fun c => c.location) = .ok none := by
  refine ⟨rfl, rfl, rfl, rfl⟩

/-- C2 (amended): the backend is chosen by the precedence explicit argument >
`LLM_PROVIDER` (lower-cased) > Vertex AI default, and the three routes
construct three distinct clients; besides their distinct credential/env
lookups the constructions also differ in hard-coded parameters (Vertex binds
a fixed location and a 1024-token output cap, OpenAI a 1024-token cap, while
the Gemini API construction deliberately omits the cap). -/
theorem get_llm_precedence_distinct (env : Env) :
    get_llm env (some "openai") = _openai_llm env ∧
    get_llm env (some "gemini_api") = _gemini_api_llm env ∧
    (env "LLM_PROVIDER" = none → get_llm env none = _vertex_llm env) ∧
    (∀ v, env "LLM_PROVIDER" = some v →
      get_llm env none = get_llm env (some (pyLower v))) ∧
    (∀ c, _openai_llm env = .ok c →
      c.className = "ChatOpenAI" ∧ c.maxOutputTokens = some 1024 ∧
        c.location = none) ∧
    (∀ c, _gemini_api_llm env = .ok c →
      c.className = "ChatGoogleGenerativeAI" ∧ c.maxOutputTokens = none ∧
        c.location = none) ∧
    (∀ c, _vertex_llm env = .ok c →
      c.className = "ChatVertexAI" ∧ c.maxOutputTokens = some 1024 ∧
        c.location = some "us-central1") := by
  refine ⟨rfl, rfl, ?_, ?_, ?_, ?_, ?_⟩
  · intro h
    unfold get_llm
    rw [h]
    rfl
  · intro v h
    unfold get_llm
    rw [h]
    by_cases hv : pyLower v = "" <;> simp [hv]
  · intro c hc
    unfold _openai_llm at hc
    split at hc
    · exact Except.noConfusion hc
    · cases hc
      exact ⟨rfl, rfl, rfl⟩
  · intro c hc
    unfold _gemini_api_llm at hc
    split at hc
    · exact Except.noConfusion hc
    · cases hc
      exact ⟨rfl, rfl, rfl⟩
  · intro c hc
    unfold _vertex_llm at hc
    split at hc
    · exact Except.noConfusion hc
    · cases hc
      exact ⟨rfl, rfl, rfl⟩

/-- The Gemini API client as constructed under `envFull`. -/
def geminiClientFull : LLMClient :=
  { className := "ChatGoogleGenerativeAI"
    model := "gemini-2p5-flash"
    temperature := "0.3"
    maxOutputTokens := none
    project := none
    location := none
    apiKey := some "gk-123" }

/-- Witness for C2 discharging the hypotheses at concrete environments: with
`LLM_PROVIDER` unset the default route is Vertex, with `LLM_PROVIDER` set to
"OpenAI" the unset-argument route agrees with the lower-cased explicit one,
and the concrete Gemini client construction omits the token cap. -/
theorem get_llm_precedence_distinct_witness :
    get_llm envFull none = _vertex_llm envFull ∧
    get_llm envProviderSet none = get_llm envProviderSet (some (pyLower "OpenAI")) ∧
    (geminiClientFull.className = "ChatGoogleGenerativeAI" ∧
      geminiClientFull.maxOutputTokens = none ∧ geminiClientFull.location = none) :=
  ⟨(get_llm_precedence_distinct envFull).2.2.1 rfl,
   (get_llm_precedence_distinct envProviderSet).2.2.2.1 "OpenAI" rfl,
   (get_llm_precedence_distinct envFull).2.2.2.2.2.1 geminiClientFull rfl⟩

/-! ## C6 -/

/-- Dependencies rendering three page images, with OCR unavailable. -/
def depsVision : Deps Nat :=
  { pdfReader := none
    convertFromPath := some fun _ => .ok [10, 20, 30]
    pytesseract := none
    pngBase64 := fun i => .ok (toString i)
    invoke := fun _ _ => .pyStr "resp" }

/-- The client/messages pair assembled by the vision fixture. -/
def visionPair : LLMClient × List Message :=
  match diagnose_messages depsVision fsUnreadable envFull "p.pdf"
      (.single "r.txt") (some "gemini_api") with
  | .ok x => x
  | .error _ => (geminiClientFull, [])

/-- C6: page-image blocks are attached exactly on the vision path, which is
detected by name comparison — the lower-cased explicit provider equal to
"gemini_api", or the instantiated client's class name equal to
"ChatGoogleGenerativeAI". On the vision path the request is the single
multimodal human message carrying one image block per rendered page; on
every other path it is the system-instruction plus user-message pair with no
image blocks. -/
theorem vision_detection_and_message_shape {Image : Type} (deps : Deps Image)
    (fs : FS) (env : Env) (pdf_path : String) (raw : RawArg)
    (provider : Option String) (llm : LLMClient) (msgs : List Message)
    (h : diagnose_messages deps fs env pdf_path raw provider = .ok (llm, msgs)) :
    (using_gemini_vision provider llm = true ↔
      (pyLower (provider.getD "") = "gemini_api" ∨
        llm.className = "ChatGoogleGenerativeAI")) ∧
    (using_gemini_vision provider llm = true →
      msgs = [Message.human (.parts (vision_content_parts
          (system_prompt ++ "\n\n" ++
            user_prompt (_extract_pdf_text deps pdf_path)
              (assemble_raw_text fs raw))
          (_extract_pdf_page_images deps pdf_path (some 16))))] ∧
        messagesImageCount msgs =
          (_extract_pdf_page_images deps pdf_path (some 16)).length) ∧
    (using_gemini_vision provider llm = false →
      msgs = [Message.system (.str system_prompt),
              Message.human (.str (user_prompt (_extract_pdf_text deps pdf_path)
                (assemble_raw_text fs raw)))] ∧
        messagesImageCount msgs = 0) := by
  obtain ⟨-, hcase⟩ := diagnose_messages_shape deps fs env pdf_path raw provider
    llm msgs h
  refine ⟨?_, ?_, ?_⟩
  · unfold using_gemini_vision
    by_cases hp : pyLower (provider.getD "") = "gemini_api" <;> simp [hp]
  · intro hv
    rcases hcase with ⟨-, hm⟩ | ⟨hv', -⟩
    · exact ⟨hm, by rw [hm]; exact messagesImageCount_vision _ _⟩
    · rw [hv] at hv'
      exact absurd hv' (by simp)
  · intro hv
    rcases hcase with ⟨hv', -⟩ | ⟨-, hm⟩
    · rw [hv] at hv'
      exact absurd hv' (by simp)
    · exact ⟨hm, by rw [hm]; exact messagesImageCount_plain _ _⟩

/-- Witness for C6 on the vision fixture. -/
theorem vision_detection_and_message_shape_witness :
    visionPair.2 = [Message.human (.parts (vision_content_parts
        (system_prompt ++ "\n\n" ++
          user_prompt (_extract_pdf_text depsVision "p.pdf")
            (assemble_raw_text fsUnreadable (.single "r.txt")))
        (_extract_pdf_page_images depsVision "p.pdf" (some 16))))] :=
  ((vision_detection_and_message_shape depsVision fsUnreadable envFull "p.pdf"
      (.single "r.txt") (some "gemini_api") visionPair.1 visionPair.2
      rfl).2.1 rfl).1

/-! ## C9 -/

-- The page-image extractor truncates before encoding, so a numeric cap
-- bounds the result length.
theorem extract_pdf_page_images_le {Image : Type} (deps : Deps Image)
    (pdf_path : String) (n : Nat) :
    (_extract_pdf_page_images deps pdf_path (some n)).length ≤ n := by
  unfold _extract_pdf_page_images
  cases h1 : deps.convertFromPath with
  | none => simp
  | some conv =>
    cases h2 : conv pdf_path with
    | error e => simp [h2]
    | ok imgs =>
      simp only [h2]
      calc (List.filterMap _ (imgs.take n)).length
          ≤ (imgs.take n).length := List.length_filterMap_le _ _
        _ ≤ n := by simp [List.length_take]

/-- C9: `_extract_pdf_page_images` called with a numeric `max_pages` returns
at most that many data URLs, and the vision path of
`diagnose_customer_issue` (which calls it with `max_pages=16`) attaches at
most 16 page-image blocks — as does every other path, which attaches none. -/
theorem page_images_capped {Image : Type} (deps : Deps Image)
    (pdf_path : String) :
    (∀ n, (_extract_pdf_page_images deps pdf_path (some n)).length ≤ n) ∧
    (∀ (fs : FS) (env : Env) (raw : RawArg) (provider : Option String)
      (llm : LLMClient) (msgs : List Message),
      diagnose_messages deps fs env pdf_path raw provider = .ok (llm, msgs) →
      messagesImageCount msgs ≤ 16) := by
  refine ⟨fun n => extract_pdf_page_images_le deps pdf_path n, ?_⟩
  intro fs env raw provider llm msgs h
  obtain ⟨-, hcase⟩ := diagnose_messages_shape deps fs env pdf_path raw provider
    llm msgs h
  rcases hcase with ⟨-, hm⟩ | ⟨-, hm⟩
  · rw [hm, messagesImageCount_vision]
    exact extract_pdf_page_images_le deps pdf_path 16
  · rw [hm, messagesImageCount_plain]
    exact Nat.zero_le 16

/-- Witness for C9: the concrete cap at 2 pages and the concrete vision
request of the three-page fixture. -/
theorem page_images_capped_witness :
    (_extract_pdf_page_images depsVision "p.pdf" (some 2)).length ≤ 2 ∧
    messagesImageCount visionPair.2 ≤ 16 :=
  ⟨(page_images_capped depsVision "p.pdf").1 2,
   (page_images_capped depsVision "p.pdf").2 fsUnreadable envFull
     (.single "r.txt") (some "gemini_api") visionPair.1 visionPair.2 rfl⟩

/-! ## C7 -/

/-- C7: when the PDF is missing or no raw file is supplied, both UI variants
surface a single message prompting for both inputs and never reach the
orchestrator (no model call appears in the event trace). -/
theorem ui_missing_inputs_no_model_call {Image : Type} (deps : Deps Image)
    (fs : FS) (env : Env) (tmp_dir : String) (pdf_s : Option String)
    (raws_s : Option (List String)) (pdf_u : Option UploadedFile)
    (raws_u : List UploadedFile)
    (h1 : pdf_s = none ∨ raws_s = none ∨ raws_s = some [])
    (h2 : pdf_u = none ∨ raws_u = []) :
    _run_diagnosis deps fs env pdf_s raws_s =
      [UIEvent.yielded "Please upload both the PDF and raw data files."] ∧
    UIEvent.modelCall ∉ _run_diagnosis deps fs env pdf_s raws_s ∧
    launch_diagnose_click deps env tmp_dir pdf_u raws_u =
      [UIEvent.warned "Please upload both the PDF and at least one raw data file."] ∧
    UIEvent.modelCall ∉ launch_diagnose_click deps env tmp_dir pdf_u raws_u := by
  have e1 : _run_diagnosis deps fs env pdf_s raws_s =
      [UIEvent.yielded "Please upload both the PDF and raw data files."] := by
    rcases h1 with h | h | h <;> simp [_run_diagnosis, h]
  have e2 : launch_diagnose_click deps env tmp_dir pdf_u raws_u =
      [UIEvent.warned "Please upload both the PDF and at least one raw data file."] := by
    rcases h2 with h | h
    · simp [launch_diagnose_click, h]
    · cases pdf_u <;> simp [launch_diagnose_click, h]
  refine ⟨e1, ?_, e2, ?_⟩
  · rw [e1]
    simp
  · rw [e2]
    simp

/-- Witness for C7: a PDF uploaded in both UIs but an empty raw-file list. -/
theorem ui_missing_inputs_no_model_call_witness :
    _run_diagnosis depsTextOnly fsUnreadable envFull (some "cust.pdf") (some []) =
      [UIEvent.yielded "Please upload both the PDF and raw data files."] ∧
    UIEvent.modelCall ∉
      _run_diagnosis depsTextOnly fsUnreadable envFull (some "cust.pdf") (some []) ∧
    launch_diagnose_click depsTextOnly envFull "/tmp/up"
        (some { name := "cust.pdf", bytes := [] }) [] =
      [UIEvent.warned "Please upload both the PDF and at least one raw data file."] ∧
    UIEvent.modelCall ∉
      launch_diagnose_click depsTextOnly envFull "/tmp/up"
        (some { name := "cust.pdf", bytes := [] }) [] :=
  ui_missing_inputs_no_model_call depsTextOnly fsUnreadable envFull "/tmp/up"
    (some "cust.pdf") (some []) (some { name := "cust.pdf", bytes := [] }) []
    (Or.inr (Or.inr rfl)) (Or.inr rfl)

/-! ## C8 -/

/-- Dependencies whose client returns an object response with a present but
empty `content` attribute. -/
def depsObjResp : Deps Nat :=
  { pdfReader := none
    convertFromPath := none
    pytesseract := none
    pngBase64 := fun _ => .error ()
    invoke := fun _ _ => .pyObj (some "") "AIMessage-raw-form" }

/-- C8 counterexample: the invoked client returns a response whose `content`
attribute is present with string form "" — by the claim the returned value
should be that content field (the empty string, with the fallback reserved
for an absent field), but `diagnose_customer_issue` returns `str(response)`
instead: the code also falls back when the field is present but its string
form is empty (`or` on a falsy string). -/
theorem response_content_present_not_returned :
    depsObjResp.invoke geminiClientFull [] = .pyObj (some "") "AIMessage-raw-form" ∧
    diagnose_customer_issue depsObjResp fsUnreadable envFull "doc.pdf"
      (.single "r.txt") (some "openai") = .ok "AIMessage-raw-form" ∧
    "AIMessage-raw-form" ≠ "" := by
  refine ⟨rfl, rfl, by decide⟩

/-- The client/messages pair assembled by the object-response fixture. -/
def objPair : LLMClient × List Message :=
  match diagnose_messages depsObjResp fsUnreadable envFull "doc.pdf"
      (.single "r.txt") (some "openai") with
  | .ok x => x
  | .error _ => (geminiClientFull, [])

/-- C8 (amended): once the messages are assembled, `diagnose_customer_issue`
returns a plain string response as is, and otherwise returns the string form
of the `content` attribute unless that string is empty — because the
attribute is absent *or* its string form is empty — in which case it returns
the raw response's string form. The result is always a string (the success
type of the embedding is `String`). -/
theorem response_unwrap_amended {Image : Type} (deps : Deps Image) (fs : FS)
    (env : Env) (pdf_path : String) (raw : RawArg) (provider : Option String)
    (llm : LLMClient) (msgs : List Message)
    (h : diagnose_messages deps fs env pdf_path raw provider = .ok (llm, msgs)) :
    diagnose_customer_issue deps fs env pdf_path raw provider =
      .ok (match deps.invoke llm msgs with
        | .pyStr s => s
        | .pyObj contentText strForm =>
          if contentText.getD "" = "" then strForm else contentText.getD "") := by
  unfold diagnose_customer_issue
  rw [h]
  cases hres : deps.invoke llm msgs <;> simp [extract_content, hres]

/-- Witness for C8 on the object-response fixture. -/
theorem response_unwrap_amended_witness :
    diagnose_customer_issue depsObjResp fsUnreadable envFull "doc.pdf"
      (.single "r.txt") (some "openai") =
      .ok (match depsObjResp.invoke objPair.1 objPair.2 with
        | .pyStr s => s
        | .pyObj contentText strForm =>
          if contentText.getD "" = "" then strForm else contentText.getD "") :=
  response_unwrap_amended depsObjResp fsUnreadable envFull "doc.pdf"
    (.single "r.txt") (some "openai") objPair.1 objPair.2 rfl

end Finder

